import Mathlib

/-!
Verification of the scheduler / command-synthesis core of
`pyPumpControl.py` (Ender-3 syringe pump control).

The Python source is shallowly embedded below.  Python floats are
modelled as exact rationals (`ℚ`); the arithmetic the program performs
(`/60`, `/1000`, negation, `abs`) is exact on every value the claims
touch.  Sends over the serial transport are modelled by the list of
command strings that reach the transmission point of `send_gcode`,
plus an explicit write outcome (`Except SerialError Unit`) for the
`ser.write` call, since an exception raised there propagates to the
caller (there is no try/except around writes in the source).
-/

inductive Axis where
  | X
  | Y
  | Z
deriving DecidableEq, Repr

/-- `pumps.items()` iterates in insertion order `X, Y, Z` (source lines 31-35). -/
def axes : List Axis := [Axis.X, Axis.Y, Axis.Z]

def axisStr : Axis → String
  | Axis.X => "X"
  | Axis.Y => "Y"
  | Axis.Z => "Z"

/-- One entry of the `pumps` dict (source lines 31-35). -/
structure PumpAxis where
  flow : ℚ
  pos : ℚ
  syringe : String
  enabled : Bool
deriving DecidableEq, Repr

/-- One transport write failure (an exception raised by `ser.write`). -/
inductive SerialError where
  | writeError
deriving DecidableEq, Repr

/-- The module-level mutable globals of the source: `ser` (line 10,
whether a serial handle is held), `connected` (line 11), `cancelled`
(line 14) and the `pumps` dict (lines 31-35).  `MOCK_MODE` is a
compile-time constant in the source and is passed as a parameter. -/
structure State where
  ser : Bool
  connected : Bool
  cancelled : Bool
  pumps : Axis → PumpAxis

/-- Process start state (lines 10-14 and 31-35). -/
def initState : State :=
  { ser := false
    connected := false
    cancelled := false
    pumps := fun _ => { flow := 0, pos := 0, syringe := "0", enabled := true } }

/-- A syringe profile: display name and steps-per-mL constant (lines 19-24). -/
structure SyringeProfile where
  name : String
  steps : Int
deriving DecidableEq, Repr

/-- The `syringes` dict of source lines 19-24, in insertion order. -/
def syringes : List (String × SyringeProfile) :=
  [("0", { name := "none", steps := 0 }),
   ("1", { name := "10 mL HenkeJect", steps := 20927 }),
   ("2", { name := "5 mL HenkeJect", steps := 10800 }),
   ("3", { name := "2 mL HenkeJect", steps := 20003 })]

/-- `syringe_name_to_id` (line 27): name → id over the table. -/
def syringe_name_to_id (n : String) : Option String :=
  (syringes.find? fun p => p.2.name == n).map (·.1)

/-- `syringes[id]['steps']`.  The `.getD 0` default is unreachable from the
program's states: `apply_rates` only ever stores ids produced by
`syringe_name_to_id ... .getD "0"`, all of which are keys of the table. -/
def syringeSteps (id : String) : Int :=
  ((syringes.find? fun p => p.1 == id).map (·.2.steps)).getD 0

/-! ### Decimal rendering of numbers

`f"{x}"` on a Python float produces `repr(x)`.  `pyFloatRepr` models
CPython's repr on the exact rational value: the *format selection*
(fixed-point for decimal exponents in `[-4, 16)`, scientific with a
two-digit signed exponent otherwise, `'0.0'` for zero) follows CPython
exactly; the significand is the first 17 significant decimal digits,
rounded half-up with trailing zeros trimmed, which abstracts CPython's
shortest-round-trip rounding of the underlying binary64 value (the
claims below never depend on that final-digit rounding). -/

def digitChar (d : Nat) : Char := Char.ofNat (48 + d % 10)

def digitsStr (ds : List Nat) : String := ⟨ds.map digitChar⟩

/-- Little-endian base-10 digits, fuel-bounded. -/
def natDigitsAux (fuel : Nat) (n : Nat) : List Nat :=
  match fuel with
  | 0 => []
  | fuel + 1 => if n = 0 then [] else n % 10 :: natDigitsAux fuel (n / 10)

/-- Big-endian base-10 digits of `n` (empty for 0). -/
def natDigits (n : Nat) : List Nat := (natDigitsAux n n).reverse

/-- Python `str` on an `int`. -/
def intRepr (i : Int) : String :=
  if i = 0 then "0"
  else (if i < 0 then "-" else "") ++ digitsStr (natDigits i.natAbs)

/-- `10 ^ e` as a rational, for a possibly negative exponent. -/
def qpow10 (e : Int) : ℚ :=
  if 0 ≤ e then ((10 : ℚ) ^ e.toNat) else 1 / ((10 : ℚ) ^ (-e).toNat)

/-- Decimal exponent: for `0 < q`, the `e` with `10^e ≤ q < 10^(e+1)`
(fuel-bounded search; the fuel is always sufficient for the values the
program produces). -/
def decExpAux (fuel : Nat) (q : ℚ) : Int :=
  match fuel with
  | 0 => 0
  | fuel + 1 =>
    if q < 1 then decExpAux fuel (q * 10) - 1
    else if 10 ≤ q then decExpAux fuel (q / 10) + 1
    else 0

def decExp (q : ℚ) : Int := decExpAux (q.den + q.num.natAbs) q

/-- First 17 significant decimal digits of `q` (given its decimal
exponent `e`), as an integer in `[10^16, 10^17]`, rounded half-up. -/
def mantissa17 (q : ℚ) (e : Int) : Nat :=
  (Rat.floor (q * qpow10 (16 - e) + 1 / 2)).toNat

def trimZeros (ds : List Nat) : List Nat := (ds.reverse.dropWhile (· == 0)).reverse

/-- Fixed-point rendering: digits `ds`, decimal exponent `e ∈ [-4, 16)`. -/
def fixedRepr (e : Int) (ds : List Nat) : String :=
  if 0 ≤ e then
    let k := e.toNat + 1
    let intPart := ds.take k ++ List.replicate (k - ds.length) 0
    let frac := ds.drop k
    digitsStr intPart ++ "." ++ (if frac.isEmpty then "0" else digitsStr frac)
  else
    "0." ++ digitsStr (List.replicate ((-e).toNat - 1) 0 ++ ds)

/-- Scientific rendering: `d[.ddd]e±XX`. -/
def sciRepr (e : Int) (ds : List Nat) : String :=
  let mant :=
    match ds with
    | [] => "0"
    | d :: rest => digitsStr [d] ++ (if rest.isEmpty then "" else "." ++ digitsStr rest)
  let ea := e.natAbs
  let es := if ea < 10 then digitsStr (0 :: natDigits ea) else digitsStr (natDigits ea)
  mant ++ "e" ++ (if e < 0 then "-" else "+") ++ es

def pyFloatRepr (q : ℚ) : String :=
  if q = 0 then "0.0"
  else
    let sign := if q < 0 then "-" else ""
    let n := |q|
    let e0 := decExp n
    let m0 := mantissa17 n e0
    let m := if m0 = 10 ^ 17 then 10 ^ 16 else m0
    let e := if m0 = 10 ^ 17 then e0 + 1 else e0
    let ds := trimZeros (natDigits m)
    if -4 ≤ e ∧ e < 16 then sign ++ fixedRepr e ds
    else sign ++ sciRepr e ds

/-! ### Command synthesis and transport -/

/-- `toggle_pump` (lines 37-41): flips the axis's `enabled` flag.
Note the source acquires no lock here; see `toggle_pump_trace`. -/
def toggle_pump (a : Axis) (s : State) : State :=
  { s with pumps := fun b =>
      if b = a then
        { s.pumps b with enabled := !(s.pumps b).enabled }
      else s.pumps b }

/-- `send_gcode` (lines 81-85): transmits only while `connected`; on a
real transport with a live handle the `ser.write` call may raise, in
which case the exception propagates to the caller (no try/except) and
the trailing `print` does not run.  The returned list holds the
command if it reached the transmission/logging point. -/
def send_gcode (mock : Bool) (wr : Except SerialError Unit) (s : State)
    (command : String) : Except SerialError (List String) :=
  if s.connected then
    if !mock && s.ser then
      match wr with
      | .ok _ => .ok [command]
      | .error e => .error e
    else .ok [command]
  else .ok []

/-- Sequential sends: later commands are not attempted after a raised
write error; commands emitted before the failure are kept. -/
def send_seq (mock : Bool) (s : State) :
    List (Except SerialError Unit × String) → List String × Option SerialError
  | [] => ([], none)
  | (wr, c) :: rest =>
    match send_gcode mock wr s c with
    | .error e => ([], some e)
    | .ok out => (out ++ (send_seq mock s rest).1, (send_seq mock s rest).2)

/-- `connect_serial` (lines 44-70).  `openOk` is the outcome of the whole
guarded block (`serial.Serial(...)` and the four initialization sends):
the source's `except` clause catches any exception there and leaves
`connected = False`.  The 2-second readiness wait and input-buffer
reset before `connected = True` are real-time transport effects with no
observable state in this model.  `cancelled = False` happens first,
unconditionally (line 46). -/
def connect_serial (mock : Bool) (openOk : Bool)
    (w1 w2 w3 w4 : Except SerialError Unit) (s : State) : State × List String :=
  let s1 := { s with cancelled := false }
  if mock then ({ s1 with connected := true }, [])
  else if openOk then
    let s2 := { s1 with ser := true, connected := true }
    let r := send_seq mock s2
      [(w1, "M92 X-0 Y-0 Z0"), (w2, "M302 S0"), (w3, "M211 S0"), (w4, "G91")]
    match r.2 with
    | some _ => ({ s2 with connected := false }, r.1)
    | none => (s2, r.1)
  else ({ s1 with connected := false }, [])

/-- `disconnect_serial` (lines 72-79). -/
def disconnect_serial (mock : Bool) (s : State) : State :=
  let s1 := if !mock && s.ser then { s with ser := false } else s
  { s1 with connected := false }

/-- The motion command built by one pass of the scheduler body
(lines 95-103): `"G1"`, then for each axis in order X, Y, Z whose
`enabled` flag is set, a rate field `axis + repr(flow/60/1000)`,
then the trailing `" F" + repr(printer_stepsize)`. -/
def motion_cmd (pumps : Axis → PumpAxis) (printer_stepsize : ℚ) : String :=
  let cmd := "G1"
  let cmd := axes.foldl
    (fun cmd axis =>
      let data := pumps axis
      if !data.enabled then cmd
      else
        let flow := data.flow
        let printer_flow := flow / 60 / 1000
        cmd ++ " " ++ axisStr axis ++ pyFloatRepr printer_flow)
    cmd
  cmd ++ " F" ++ pyFloatRepr printer_stepsize

/-- One tick of the `scheduler` loop body (lines 91-104), after the
sleep.  `printer_stepsize = stepsize / 60` is computed once before the
loop (line 89) from the constant `stepsize`; passing `stepsize` here
yields the same value every tick.  The tick mutates no state. -/
def scheduler_tick (mock : Bool) (wr : Except SerialError Unit) (stepsize : ℚ)
    (s : State) : Except SerialError (List String) :=
  let printer_stepsize := stepsize / 60
  if s.connected && !s.cancelled then
    send_gcode mock wr s (motion_cmd s.pumps printer_stepsize)
  else .ok []

/-- The scheduler thread: successive ticks with the given per-tick
write outcomes.  An exception escaping a tick body is uncaught in
`scheduler` (lines 88-104), so it terminates the thread: no further
tick runs.  Returns the motion commands emitted before termination and
the escaped error, if any. -/
def scheduler_run (mock : Bool) (stepsize : ℚ) (s : State) :
    List (Except SerialError Unit) → List String × Option SerialError
  | [] => ([], none)
  | wr :: rest =>
    match scheduler_tick mock wr stepsize s with
    | .error e => ([], some e)
    | .ok out =>
      (out ++ (scheduler_run mock stepsize s rest).1,
       (scheduler_run mock stepsize s rest).2)

/-- `cancel_and_reset` (lines 106-116): latches `cancelled`, zeroes all
flows, then sends `M112` and `M999`. -/
def cancel_and_reset (mock : Bool) (w1 w2 : Except SerialError Unit) (s : State) :
    (State × List String) × Option SerialError :=
  let s1 := { s with cancelled := true, pumps := fun a => { s.pumps a with flow := 0 } }
  let r := send_seq mock s1 [(w1, "M112"), (w2, "M999")]
  ((s1, r.1), r.2)

/-- Per-axis user input to `apply_rates`: `flowText` is the result of
`float(flow_entries[axis].get())` — `none` models the `ValueError`
raised on an unparseable entry text (line 124-126), which the source
catches and coerces to `0.0`; `selectedName` is the chosen syringe
display name. -/
structure RateInput where
  flowText : Option ℚ
  selectedName : String

/-- Python `" ".join(parts)`. -/
def joinSep (sep : String) : List String → String
  | [] => ""
  | [a] => a
  | a :: b :: rest => a ++ sep ++ joinSep sep (b :: rest)

/-- The dynamic `M92` command of `apply_rates` (lines 132-141): for each
axis, the steps constant of its stored syringe id, negated through
`-abs(...)` for X and Y, unchanged for Z. -/
def m92_cmd_of (pumps : Axis → PumpAxis) : String :=
  let parts := axes.map fun a =>
    let steps_per_ml := syringeSteps ((pumps a).syringe)
    let steps_per_ml :=
      if a = Axis.X ∨ a = Axis.Y then -(|steps_per_ml|) else steps_per_ml
    axisStr a ++ intRepr steps_per_ml
  "M92 " ++ joinSep " " parts

/-- `apply_rates` (lines 119-147): stores each axis's parsed flow
(`0.0` on parse failure) and syringe id (`'0'` for an unknown name),
then sends the dynamic `M92` followed by the three standing
initialization commands.  A raised write error propagates to the
caller; the state mutations made before it persist. -/
def apply_rates (mock : Bool) (w1 w2 w3 w4 : Except SerialError Unit)
    (inp : Axis → RateInput) (s : State) : (State × List String) × Option SerialError :=
  let pumps1 := fun a =>
    { s.pumps a with
      flow := ((inp a).flowText).getD 0,
      syringe := ((syringe_name_to_id (inp a).selectedName).getD "0") }
  let s1 := { s with pumps := pumps1 }
  let r := send_seq mock s1
    [(w1, m92_cmd_of pumps1), (w2, "M302 S0"), (w3, "M211 S0"), (w4, "G91")]
  ((s1, r.1), r.2)

/-! ### Operation-level trace (lock discipline)

The source guards `pumps`, `cancelled` and the sends with the single
`lock` — except in `toggle_pump`.  To settle the locking claim we
transcribe the sequence of atomic actions each operation performs. -/

inductive LockAction where
  | acquire
  | release
  | writeEnabled (a : Axis)
  | writeFlow (a : Axis)
  | writeSyringe (a : Axis)
  | writeCancelled
  | send (c : String)
  | gui
deriving DecidableEq, Repr

/-- The action sequence of `toggle_pump` (lines 37-41): the mutation of
`pumps[axis]['enabled']`, then the button reconfiguration and the
print.  The body contains no `with lock:`. -/
def toggle_pump_trace (a : Axis) : List LockAction :=
  [LockAction.writeEnabled a, LockAction.gui, LockAction.gui]

/-- The action sequence of `cancel_and_reset` (lines 106-116), whose
whole body runs under `with lock:`. -/
def cancel_and_reset_trace : List LockAction :=
  [LockAction.acquire, LockAction.writeCancelled] ++
    (axes.flatMap fun a => [LockAction.writeFlow a, LockAction.gui]) ++
    [LockAction.send "M112", LockAction.send "M999", LockAction.gui, LockAction.gui, LockAction.release]

/-- Number of locks held before executing position `i` of a trace. -/
def lockDepthAt (tr : List LockAction) (i : Nat) : Int :=
  (tr.take i).foldl
    (fun d act =>
      match act with
      | LockAction.acquire => d + 1
      | LockAction.release => d - 1
      | _ => d)
    0

def isPumpWrite : LockAction → Bool
  | LockAction.writeEnabled _ => true
  | LockAction.writeFlow _ => true
  | LockAction.writeSyringe _ => true
  | _ => false

/-! ### Control-surface operations as a step relation -/

inductive Op where
  | connectOp (openOk : Bool) (w1 w2 w3 w4 : Except SerialError Unit)
  | disconnectOp
  | toggleOp (a : Axis)
  | applyRatesOp (w1 w2 w3 w4 : Except SerialError Unit) (inp : Axis → RateInput)
  | cancelOp (w1 w2 : Except SerialError Unit)
  | tickOp (wr : Except SerialError Unit) (stepsize : ℚ)

def Op.isConnect : Op → Bool
  | Op.connectOp _ _ _ _ _ => true
  | _ => false

/-- The state reached by one operation (emissions and escaped errors
are dropped here; a raised write error does not undo the state
mutations already performed). -/
def step (mock : Bool) : Op → State → State
  | Op.connectOp ok w1 w2 w3 w4, s => (connect_serial mock ok w1 w2 w3 w4 s).1
  | Op.disconnectOp, s => disconnect_serial mock s
  | Op.toggleOp a, s => toggle_pump a s
  | Op.applyRatesOp w1 w2 w3 w4 inp, s => (apply_rates mock w1 w2 w3 w4 inp s).1.1
  | Op.cancelOp w1 w2, s => (cancel_and_reset mock w1 w2 s).1.1
  | Op.tickOp _ _, s => s

def run (mock : Bool) : List Op → State → State
  | [], s => s
  | op :: ops, s => run mock ops (step mock op s)

/-! ### String helper lemmas -/

theorem strData_append (s t : String) : (s ++ t).data = s.data ++ t.data := by
  cases s
  cases t
  rfl

theorem strData_empty : ("" : String).data = [] := rfl

theorem strExt {s t : String} (h : s.data = t.data) : s = t := by
  cases s
  cases t
  exact congrArg String.mk h

theorem strJoin_shift (l : List String) (x : String) :
    l.foldl (· ++ ·) x = x ++ l.foldl (· ++ ·) "" := by
  induction l generalizing x with
  | nil =>
    apply strExt
    simp [strData_append, strData_empty]
  | cons a l ih =>
    simp only [List.foldl]
    rw [ih (x ++ a), ih ("" ++ a)]
    apply strExt
    simp [strData_append, strData_empty]

theorem strJoin_cons (a : String) (l : List String) :
    String.join (a :: l) = a ++ String.join l := by
  simp only [String.join, List.foldl]
  rw [strJoin_shift l ("" ++ a)]
  apply strExt
  simp [strData_append, strData_empty]

theorem strJoin_append (l1 l2 : List String) :
    String.join (l1 ++ l2) = String.join l1 ++ String.join l2 := by
  induction l1 with
  | nil =>
    apply strExt
    simp [strData_append, strData_empty, String.join]
  | cons a l ih =>
    rw [List.cons_append, strJoin_cons, strJoin_cons, ih]
    apply strExt
    simp [strData_append]

def motionField (pumps : Axis → PumpAxis) (a : Axis) : String :=
  " " ++ axisStr a ++ pyFloatRepr ((pumps a).flow / 60 / 1000)

theorem motion_cmd_eq (pumps : Axis → PumpAxis) (p : ℚ) :
    motion_cmd pumps p =
      "G1" ++ String.join ((axes.filter fun a => (pumps a).enabled).map (motionField pumps))
        ++ (" F" ++ pyFloatRepr p) := by
  rcases hX : (pumps Axis.X).enabled <;> rcases hY : (pumps Axis.Y).enabled <;>
    rcases hZ : (pumps Axis.Z).enabled <;>
    · apply strExt
      simp [motion_cmd, axes, motionField, hX, hY, hZ, String.join, strData_append,
        strData_empty]

theorem digitChar_not (d : Nat) : digitChar d ≠ ' ' ∧ digitChar d ≠ 'e' := by
  have h : d % 10 < 10 := Nat.mod_lt _ (by norm_num)
  unfold digitChar
  generalize d % 10 = m at h
  interval_cases m <;> exact ⟨by decide, by decide⟩

theorem digitsStr_not {c : Char} (ds : List Nat) (h : c ∈ (digitsStr ds).data) :
    c ≠ ' ' ∧ c ≠ 'e' := by
  have h' : c ∈ ds.map digitChar := h
  rcases List.mem_map.1 h' with ⟨d, _, rfl⟩
  exact digitChar_not d

theorem fixedRepr_not {c : Char} (e : Int) (ds : List Nat)
    (h : c ∈ (fixedRepr e ds).data) : c ≠ ' ' ∧ c ≠ 'e' := by
  unfold fixedRepr at h
  split at h
  · simp only [strData_append, List.mem_append] at h
    rcases h with (h | h) | h
    · exact digitsStr_not _ h
    · have h2 : c ∈ ['.'] := h
      simp at h2
      subst h2
      exact ⟨by decide, by decide⟩
    · split at h
      · have h2 : c ∈ ['0'] := h
        simp at h2
        subst h2
        exact ⟨by decide, by decide⟩
      · exact digitsStr_not _ h
  · simp only [strData_append, List.mem_append] at h
    rcases h with h | h
    · have h2 : c ∈ ['0', '.'] := h
      simp at h2
      rcases h2 with rfl | rfl <;> exact ⟨by decide, by decide⟩
    · exact digitsStr_not _ h

theorem sciRepr_not {c : Char} (e : Int) (ds : List Nat)
    (h : c ∈ (sciRepr e ds).data) : c ≠ ' ' := by
  unfold sciRepr at h
  simp only [strData_append, List.mem_append] at h
  rcases h with ((h | h) | h) | h
  · split at h
    · have h2 : c ∈ ['0'] := h
      simp at h2
      subst h2
      decide
    · simp only [strData_append, List.mem_append] at h
      rcases h with h | h
      · exact (digitsStr_not _ h).1
      · split at h
        · have h2 : c ∈ ([] : List Char) := h
          cases h2
        · simp only [strData_append, List.mem_append] at h
          rcases h with h | h
          · have h2 : c ∈ ['.'] := h
            simp at h2
            subst h2
            decide
          · exact (digitsStr_not _ h).1
  · have h2 : c ∈ ['e'] := h
    simp at h2
    subst h2
    decide
  · split at h
    · have h2 : c ∈ ['-'] := h
      simp at h2
      subst h2
      decide
    · have h2 : c ∈ ['+'] := h
      simp at h2
      subst h2
      decide
  · split at h
    · exact (digitsStr_not _ h).1
    · exact (digitsStr_not _ h).1

theorem pyFloatRepr_no_space (q : ℚ) : ' ' ∉ (pyFloatRepr q).data := by
  intro h
  unfold pyFloatRepr at h
  split at h
  · have h2 : (' ' : Char) ∈ ['0', '.', '0'] := h
    simp at h2
  · split at h
    all_goals dsimp only at h
    all_goals split at h
    all_goals split at h
    all_goals
      simp only [strData_append, List.mem_append] at h
      rcases h with h | h
      · first
        | (have h2 : (' ' : Char) ∈ ['-'] := h
           simp at h2)
        | (have h2 : (' ' : Char) ∈ ([] : List Char) := h
           cases h2)
      · first
        | exact (fixedRepr_not _ _ h).1 rfl
        | exact sciRepr_not _ _ h rfl

theorem intRepr_not {c : Char} (i : Int) (h : c ∈ (intRepr i).data) :
    c ≠ ' ' ∧ c ≠ 'e' := by
  unfold intRepr at h
  split at h
  · have h2 : c ∈ ['0'] := h
    simp at h2
    subst h2
    exact ⟨by decide, by decide⟩
  · simp only [strData_append, List.mem_append] at h
    rcases h with h | h
    · split at h
      · have h2 : c ∈ ['-'] := h
        simp at h2
        subst h2
        exact ⟨by decide, by decide⟩
      · have h2 : c ∈ ([] : List Char) := h
        cases h2
    · exact digitsStr_not _ h

/-! ### Helper lemmas about the embedded operations -/

/-- A non-`connect` operation never clears the `cancelled` latch
(`connect_serial` is the only writer of `cancelled = False`,
line 46; `cancel_and_reset` sets it, line 109). -/
theorem step_cancelled (mock : Bool) (op : Op) (s : State) (hop : op.isConnect = false)
    (hc : s.cancelled = true) : (step mock op s).cancelled = true := by
  cases op with
  | connectOp ok w1 w2 w3 w4 => simp [Op.isConnect] at hop
  | disconnectOp =>
    simp only [step, disconnect_serial]
    split <;> exact hc
  | toggleOp a => exact hc
  | applyRatesOp w1 w2 w3 w4 inp => exact hc
  | cancelOp w1 w2 => rfl
  | tickOp wr st => exact hc

theorem run_cancelled (mock : Bool) :
    ∀ (ops : List Op) (s : State), (∀ op ∈ ops, op.isConnect = false) →
      s.cancelled = true → (run mock ops s).cancelled = true
  | [], _, _, hc => hc
  | op :: ops, s, hops, hc =>
    run_cancelled mock ops (step mock op s)
      (fun o ho => hops o (List.mem_cons_of_mem _ ho))
      (step_cancelled mock op s (hops op (List.mem_cons_self _ _)) hc)

/-- In mock mode a tick never raises: no `ser.write` happens. -/
theorem scheduler_tick_mock (wr : Except SerialError Unit) (st : ℚ) (s : State) :
    scheduler_tick true wr st s =
      .ok (if s.connected && !s.cancelled then [motion_cmd s.pumps (st / 60)] else []) := by
  rcases hc : s.connected <;> rcases hk : s.cancelled <;>
    simp [scheduler_tick, send_gcode, hc, hk]

theorem scheduler_run_mock (st : ℚ) (s : State) :
    ∀ wrs, (scheduler_run true st s wrs).2 = none
  | [] => rfl
  | wr :: rest => by
    rw [scheduler_run, scheduler_tick_mock]
    exact scheduler_run_mock st s rest

/-! ### Claim theorems -/

/-- Pump table with every axis disabled (used to witness the
all-disabled edge case). -/
def pumpsAllOff : Axis → PumpAxis :=
  fun _ => { flow := 0, pos := 0, syringe := "0", enabled := false }

/-- Pump table with every axis enabled at flow 6000 uL/min. -/
def pumps6000 : Axis → PumpAxis :=
  fun _ => { flow := 6000, pos := 0, syringe := "0", enabled := true }

/-- C1: the motion command a scheduler tick passes to `send_gcode` is
`"G1"` followed by exactly one rate field per axis whose enabled flag
is true, in the fixed order X, Y, Z, followed by exactly one trailing
`F` period field; the fields are space-delimited and no rendered
number contains a space, and with all three axes disabled the command
degenerates to `"G1 F<period>"` — only the trailing field, with no
special-case suppression. -/
theorem motion_cmd_field_structure (pumps : Axis → PumpAxis) (p : ℚ) :
    (motion_cmd pumps p =
      "G1" ++ String.join ((axes.filter fun a => (pumps a).enabled).map (motionField pumps))
        ++ (" F" ++ pyFloatRepr p))
    ∧ (∀ q, ' ' ∉ (pyFloatRepr q).data)
    ∧ ((∀ a, (pumps a).enabled = false) →
        motion_cmd pumps p = "G1 F" ++ pyFloatRepr p) := by
  refine ⟨motion_cmd_eq pumps p, pyFloatRepr_no_space, fun hall => ?_⟩
  rw [motion_cmd_eq pumps p]
  have hfil : (axes.filter fun a => (pumps a).enabled) = [] := by
    simp [axes, hall]
  rw [hfil]
  apply strExt
  simp only [strData_append, String.join, List.map_nil, List.foldl_nil, strData_empty,
    List.append_nil, List.nil_append]
  rw [← List.append_assoc]
  rfl

/-- Witness for C1 at a concrete all-disabled pump table. -/
theorem motion_cmd_field_structure_witness :
    motion_cmd pumpsAllOff (1 / 60) = "G1 F" ++ pyFloatRepr (1 / 60) :=
  (motion_cmd_field_structure pumpsAllOff (1 / 60)).2.2 (fun _ => rfl)

/-- C4: the rate field emitted for an enabled axis is the axis letter
followed by the rendering of `flow / 60 / 1000` (uL/min → mL/s), and
flow 6000 yields exactly 0.1. -/
theorem motion_rate_unit_conversion (pumps : Axis → PumpAxis) (p : ℚ) (a : Axis)
    (h : (pumps a).enabled = true) :
    (∃ pre post : String, motion_cmd pumps p = pre ++ motionField pumps a ++ post)
    ∧ motionField pumps a = " " ++ axisStr a ++ pyFloatRepr ((pumps a).flow / 60 / 1000)
    ∧ (6000 : ℚ) / 60 / 1000 = 1 / 10
    ∧ pyFloatRepr ((6000 : ℚ) / 60 / 1000) = "0.1" := by
  refine ⟨?_, rfl, by norm_num, by with_unfolding_all decide⟩
  have ha : a ∈ (axes.filter fun a => (pumps a).enabled) := by
    rw [List.mem_filter]
    exact ⟨by cases a <;> simp [axes], by simp [h]⟩
  obtain ⟨l1, l2, hsplit⟩ := List.append_of_mem ha
  refine ⟨"G1" ++ String.join (l1.map (motionField pumps)),
    String.join (l2.map (motionField pumps)) ++ (" F" ++ pyFloatRepr p), ?_⟩
  rw [motion_cmd_eq pumps p, hsplit, List.map_append, List.map_cons,
    strJoin_append, strJoin_cons]
  apply strExt
  simp [strData_append]

/-- Witness for C4: axis X enabled at flow 6000. -/
theorem motion_rate_unit_conversion_witness :
    (pumps6000 Axis.X).enabled = true
    ∧ pyFloatRepr ((6000 : ℚ) / 60 / 1000) = "0.1" :=
  ⟨rfl, (motion_rate_unit_conversion pumps6000 (1 / 60) Axis.X rfl).2.2.2⟩

/-- A cancelled-and-connected state, to witness the latch behaviour. -/
def cancelState : State := { initState with cancelled := true, connected := true }

/-- C2: once the `cancelled` latch is set, a scheduler tick sends no
motion command even while connected; `cancel_and_reset` sets the
latch; no sequence of non-`connect` operations clears it; and
`connect_serial` (successful or not, mock or real) resets it to
false — it is the only operation that does. -/
theorem cancelled_latch_blocks_until_connect (mock : Bool) (s : State)
    (h : s.cancelled = true) :
    (∀ wr st, scheduler_tick mock wr st s = .ok [])
    ∧ (∀ w1 w2, (cancel_and_reset mock w1 w2 s).1.1.cancelled = true)
    ∧ (∀ ops : List Op, (∀ op ∈ ops, op.isConnect = false) →
        (run mock ops s).cancelled = true)
    ∧ (∀ ok w1 w2 w3 w4, (connect_serial mock ok w1 w2 w3 w4 s).1.cancelled = false) := by
  refine ⟨fun wr st => ?_, fun w1 w2 => rfl, fun ops hops => run_cancelled mock ops s hops h,
    fun ok w1 w2 w3 w4 => ?_⟩
  · simp [scheduler_tick, h]
  · rcases mock with _ | _
    · rcases ok with _ | _
      · rfl
      · simp only [connect_serial, Bool.false_eq_true, if_false, if_true]
        split <;> rfl
    · rfl

/-- Witness for C2 at a concrete cancelled, connected state. -/
theorem cancelled_latch_blocks_until_connect_witness :
    cancelState.cancelled = true
    ∧ scheduler_tick true (.ok ()) 1 cancelState = .ok []
    ∧ (run true [Op.tickOp (.ok ()) 1, Op.disconnectOp] cancelState).cancelled = true
    ∧ (connect_serial true true (.ok ()) (.ok ()) (.ok ()) (.ok ())
        cancelState).1.cancelled = false := by
  have h := cancelled_latch_blocks_until_connect true cancelState rfl
  refine ⟨rfl, h.1 (.ok ()) 1, h.2.2.1 _ ?_, h.2.2.2 true (.ok ()) (.ok ()) (.ok ()) (.ok ())⟩
  intro op hop
  rcases List.mem_cons.1 hop with rfl | hop
  · rfl
  rcases List.mem_cons.1 hop with rfl | hop
  · rfl
  cases hop

/-- C10: `cancel_and_reset` invoked while disconnected still latches
`cancelled` and zeroes every axis's flow, but transmits nothing:
neither `M112` nor `M999` reaches the transport, because `send_gcode`
is a no-op whenever `connected` is false (and hence no write error can
arise either). -/
theorem cancel_and_reset_disconnected (mock : Bool) (w1 w2 : Except SerialError Unit)
    (s : State) (h : s.connected = false) :
    (cancel_and_reset mock w1 w2 s).1.1.cancelled = true
    ∧ (∀ a, ((cancel_and_reset mock w1 w2 s).1.1.pumps a).flow = 0)
    ∧ (cancel_and_reset mock w1 w2 s).1.2 = []
    ∧ (cancel_and_reset mock w1 w2 s).2 = none := by
  refine ⟨rfl, fun a => rfl, ?_, ?_⟩
  all_goals simp [cancel_and_reset, send_seq, send_gcode, h]

/-- Witness for C10 at the (disconnected) start state. -/
theorem cancel_and_reset_disconnected_witness :
    initState.connected = false
    ∧ (cancel_and_reset true (.ok ()) (.ok ()) initState).1.2 = []
    ∧ (cancel_and_reset true (.ok ()) (.ok ()) initState).1.1.cancelled = true :=
  ⟨rfl, (cancel_and_reset_disconnected true (.ok ()) (.ok ()) initState rfl).2.2.1,
    (cancel_and_reset_disconnected true (.ok ()) (.ok ()) initState rfl).1⟩

/-- C7: an unparseable flow entry (a `ValueError` from `float`, modelled
by `flowText = none`) is coerced to `0.0` for that axis and never
propagates to the caller of `apply_rates` — every other axis's parsed
flow and every axis's syringe selection are still applied, and with
sound writes no error leaves the operation at all. -/
theorem apply_rates_unparseable_flow (mock : Bool) (w1 w2 w3 w4 : Except SerialError Unit)
    (inp : Axis → RateInput) (s : State) (a : Axis) (ha : (inp a).flowText = none) :
    (((apply_rates mock w1 w2 w3 w4 inp s).1.1.pumps a).flow = 0)
    ∧ (∀ b v, (inp b).flowText = some v →
        ((apply_rates mock w1 w2 w3 w4 inp s).1.1.pumps b).flow = v)
    ∧ (∀ b, ((apply_rates mock w1 w2 w3 w4 inp s).1.1.pumps b).syringe =
        (syringe_name_to_id (inp b).selectedName).getD "0")
    ∧ (w1 = .ok () → w2 = .ok () → w3 = .ok () → w4 = .ok () →
        (apply_rates mock w1 w2 w3 w4 inp s).2 = none) := by
  refine ⟨?_, fun b v hb => ?_, fun b => rfl, fun h1 h2 h3 h4 => ?_⟩
  · simp [apply_rates, ha]
  · simp [apply_rates, hb]
  · rcases hc : s.connected <;>
      simp [apply_rates, send_seq, send_gcode, h1, h2, h3, h4, hc]

/-- Input with an unparseable flow entry for axis Y and `5.0` elsewhere. -/
def inpBadY : Axis → RateInput
  | Axis.Y => { flowText := none, selectedName := "10 mL HenkeJect" }
  | _ => { flowText := some 5, selectedName := "10 mL HenkeJect" }

/-- Witness for C7: the Y entry is unparseable, Y's stored flow becomes
0 while X's input is still applied. -/
theorem apply_rates_unparseable_flow_witness :
    (inpBadY Axis.Y).flowText = none
    ∧ ((apply_rates true (.ok ()) (.ok ()) (.ok ()) (.ok ()) inpBadY
        initState).1.1.pumps Axis.Y).flow = 0
    ∧ ((apply_rates true (.ok ()) (.ok ()) (.ok ()) (.ok ()) inpBadY
        initState).1.1.pumps Axis.X).flow = 5 :=
  ⟨rfl,
    (apply_rates_unparseable_flow true (.ok ()) (.ok ()) (.ok ()) (.ok ())
      inpBadY initState Axis.Y rfl).1,
    (apply_rates_unparseable_flow true (.ok ()) (.ok ()) (.ok ()) (.ok ())
      inpBadY initState Axis.Y rfl).2.1 Axis.X 5 rfl⟩

/-- C3: the `M92` calibration command synthesized by `apply_rates`
carries, for axes X and Y, the negated absolute value of the selected
syringe's steps constant, and for axis Z the constant unchanged
(possibly zero), where each axis's constant is looked up through the
id that its selected display name maps to (unknown names fall back to
the `"0"` sentinel). -/
theorem apply_rates_m92_sign_convention (mock : Bool)
    (w1 w2 w3 w4 : Except SerialError Unit) (inp : Axis → RateInput) (s : State)
    (hc : s.connected = true) (h1 : w1 = .ok ()) (h2 : w2 = .ok ())
    (h3 : w3 = .ok ()) (h4 : w4 = .ok ()) :
    (apply_rates mock w1 w2 w3 w4 inp s).1.2 =
      ["M92 " ++ ("X" ++ intRepr
          (-|syringeSteps ((syringe_name_to_id (inp Axis.X).selectedName).getD "0")|))
        ++ " " ++ ("Y" ++ intRepr
          (-|syringeSteps ((syringe_name_to_id (inp Axis.Y).selectedName).getD "0")|))
        ++ " " ++ ("Z" ++ intRepr
          (syringeSteps ((syringe_name_to_id (inp Axis.Z).selectedName).getD "0"))),
       "M302 S0", "M211 S0", "G91"] := by
  have key : ∀ pumps1 : Axis → PumpAxis,
      m92_cmd_of pumps1 =
        "M92 " ++ ("X" ++ intRepr (-|syringeSteps ((pumps1 Axis.X).syringe)|))
          ++ " " ++ ("Y" ++ intRepr (-|syringeSteps ((pumps1 Axis.Y).syringe)|))
          ++ " " ++ ("Z" ++ intRepr (syringeSteps ((pumps1 Axis.Z).syringe))) := by
    intro pumps1
    apply strExt
    simp [m92_cmd_of, axes, joinSep, axisStr, strData_append]
  have hemit : (apply_rates mock w1 w2 w3 w4 inp s).1.2 =
      [m92_cmd_of (fun a =>
        { s.pumps a with
            flow := ((inp a).flowText).getD 0
            syringe := (syringe_name_to_id (inp a).selectedName).getD "0" }),
       "M302 S0", "M211 S0", "G91"] := by
    subst h1 h2 h3 h4
    rcases hs : s.ser <;> rcases mock with _ | _ <;>
      simp [apply_rates, send_seq, send_gcode, hc, hs]
  rw [hemit, key]

/-- Input selecting the 10 mL HenkeJect syringe (steps 20927) on all axes. -/
def inpAll10mL : Axis → RateInput :=
  fun _ => { flowText := some 0, selectedName := "10 mL HenkeJect" }

/-- A mock-connected state. -/
def mockConnState : State := { initState with connected := true }

/-- Witness for C3: steps 20927 selected on all three axes yields
calibration fields X-20927 Y-20927 Z20927. -/
theorem apply_rates_m92_sign_convention_witness :
    (apply_rates true (.ok ()) (.ok ()) (.ok ()) (.ok ()) inpAll10mL mockConnState).1.2 =
      ["M92 X-20927 Y-20927 Z20927", "M302 S0", "M211 S0", "G91"] := by
  have h := apply_rates_m92_sign_convention true (.ok ()) (.ok ()) (.ok ()) (.ok ())
    inpAll10mL mockConnState rfl rfl rfl rfl rfl
  rw [h]
  decide

/-- C6 as stated is false: in mock mode a successful connect — the
state ends connected — sends no commands at all, in particular not the
three standing initialization commands. -/
theorem mock_connect_sends_nothing :
    (connect_serial true true (.ok ()) (.ok ()) (.ok ()) (.ok ()) initState).1.connected = true
    ∧ (connect_serial true true (.ok ()) (.ok ()) (.ok ()) (.ok ()) initState).2 = [] :=
  ⟨rfl, rfl⟩

/-- C6 amended: only a successful real-transport connect sends the
standing initialization commands (`M302 S0`, `M211 S0`, `G91`),
preceded by the zeroed `M92` calibration, before which it declares
`connected = true`; a mock connect declares `connected = true` but
sends nothing; and a transport-open failure leaves `connected = false`. -/
theorem connect_init_commands (s : State) (w1 w2 w3 w4 : Except SerialError Unit)
    (h1 : w1 = .ok ()) (h2 : w2 = .ok ()) (h3 : w3 = .ok ()) (h4 : w4 = .ok ()) :
    ((connect_serial false true w1 w2 w3 w4 s).2 =
        ["M92 X-0 Y-0 Z0", "M302 S0", "M211 S0", "G91"]
      ∧ (connect_serial false true w1 w2 w3 w4 s).1.connected = true)
    ∧ ((connect_serial true true w1 w2 w3 w4 s).2 = []
      ∧ (connect_serial true true w1 w2 w3 w4 s).1.connected = true)
    ∧ (connect_serial false false w1 w2 w3 w4 s).1.connected = false := by
  subst h1 h2 h3 h4
  refine ⟨⟨?_, ?_⟩, ⟨rfl, rfl⟩, rfl⟩ <;>
    simp [connect_serial, send_seq, send_gcode]

/-- Witness for C6's amended statement at the start state. -/
theorem connect_init_commands_witness :
    (connect_serial false true (.ok ()) (.ok ()) (.ok ()) (.ok ()) initState).2 =
      ["M92 X-0 Y-0 Z0", "M302 S0", "M211 S0", "G91"]
    ∧ (connect_serial false false (.ok ()) (.ok ()) (.ok ()) (.ok ())
        initState).1.connected = false :=
  ⟨(connect_init_commands initState (.ok ()) (.ok ()) (.ok ()) (.ok ())
      rfl rfl rfl rfl).1.1,
   (connect_init_commands initState (.ok ()) (.ok ()) (.ok ()) (.ok ())
      rfl rfl rfl rfl).2.2⟩

/-- A real-transport connected state with a live handle. -/
def connState : State := { initState with ser := true, connected := true }

/-- C5 as stated is false: on a real transport, a tick whose write
raises terminates the scheduler loop — with write outcomes
[failure, success] nothing at all is emitted and the error escapes,
whereas the same two ticks with sound writes emit two motion
commands. -/
theorem scheduler_write_failure_counterexample :
    scheduler_run false 1 connState [.error .writeError, .ok ()] =
      ([], some .writeError)
    ∧ scheduler_run false 1 connState [.ok (), .ok ()] =
      (["G1 X0.0 Y0.0 Z0.0 F0.016666666666666667",
        "G1 X0.0 Y0.0 Z0.0 F0.016666666666666667"], none) := by
  constructor
  · rfl
  · with_unfolding_all decide

/-- C5 amended: there is no retry within a failing tick, but the
failure is not contained either — on a real transport with a live
handle, a tick whose write raises ends the scheduler run at once (no
later tick is performed, whatever its write outcome would be), while
in mock mode no write ever happens so no tick can raise. -/
theorem scheduler_write_failure_stops (st : ℚ) (s : State) (e : SerialError)
    (rest : List (Except SerialError Unit))
    (hc : s.connected = true) (hk : s.cancelled = false) (hs : s.ser = true) :
    scheduler_run false st s (.error e :: rest) = ([], some e)
    ∧ (∀ wrs, (scheduler_run true st s wrs).2 = none) := by
  refine ⟨?_, scheduler_run_mock st s⟩
  simp [scheduler_run, scheduler_tick, send_gcode, hc, hk, hs]

/-- Witness for C5's amended statement at a concrete connected state. -/
theorem scheduler_write_failure_stops_witness :
    connState.connected = true ∧ connState.cancelled = false ∧ connState.ser = true
    ∧ scheduler_run false 1 connState [.error .writeError] = ([], some .writeError)
    ∧ (scheduler_run true 1 connState [.error .writeError]).2 = none :=
  ⟨rfl, rfl, rfl,
    (scheduler_write_failure_stops 1 connState .writeError [] rfl rfl rfl).1,
    (scheduler_write_failure_stops 1 connState .writeError [] rfl rfl rfl).2
      [.error .writeError]⟩

/-- A pump table whose only enabled axis X has flow 1 uL/min. -/
def pumpsLowFlow : Axis → PumpAxis
  | Axis.X => { flow := 1, pos := 0, syringe := "0", enabled := true }
  | _ => { flow := 0, pos := 0, syringe := "0", enabled := false }

/-- C8 as stated is false: a stored flow of 1 uL/min renders as
`1.6666666666666667e-05` mL/s, so the motion command contains the
exponent marker `e`. -/
theorem motion_cmd_exponent_marker :
    'e' ∈ (motion_cmd pumpsLowFlow (1 / 60)).data
    ∧ motion_cmd pumpsLowFlow (1 / 60) =
      "G1 X1.6666666666666667e-05 F0.016666666666666667" := by
  constructor
  · with_unfolding_all decide
  · with_unfolding_all decide

/-- C8 amended: calibration (`M92`) fields are integers and never
contain an exponent marker, for every pump table; motion fields are
decimal only while the rendered magnitudes stay in repr's fixed-point
range — e.g. flows of 6000 uL/min and the 1-second period render
decimally — but small nonzero flows render exponentially. -/
theorem numeric_fields_decimal (pumps : Axis → PumpAxis) :
    'e' ∉ (m92_cmd_of pumps).data
    ∧ 'e' ∉ (motion_cmd pumps6000 (1 / 60)).data := by
  constructor
  · intro h
    unfold m92_cmd_of at h
    simp only [axes, List.map_cons, List.map_nil, joinSep,
      strData_append, List.mem_append] at h
    rcases h with h0 | ((h1 | h2) | h3) | ((h4 | h5) | h6) | (h7 | h8)
    · exact absurd h0 (by decide)
    · exact absurd h1 (by decide)
    · exact (intRepr_not _ h2).2 rfl
    · exact absurd h3 (by decide)
    · exact absurd h4 (by decide)
    · exact (intRepr_not _ h5).2 rfl
    · exact absurd h6 (by decide)
    · exact absurd h7 (by decide)
    · exact (intRepr_not _ h8).2 rfl
  · with_unfolding_all decide

/-- C9: `toggle_pump` does flip the axis's enabled flag, but its
action trace contains the pump-state write at a point where the lock
depth is zero — the body never acquires the shared lock (contrast the
`cancel_and_reset` trace, whose first write happens at depth 1). -/
theorem toggle_pump_unlocked_write :
    toggle_pump_trace Axis.X =
      [LockAction.writeEnabled Axis.X, LockAction.gui, LockAction.gui]
    ∧ isPumpWrite (LockAction.writeEnabled Axis.X) = true
    ∧ lockDepthAt (toggle_pump_trace Axis.X) 0 = 0
    ∧ LockAction.acquire ∉ toggle_pump_trace Axis.X
    ∧ lockDepthAt cancel_and_reset_trace 1 = 1
    ∧ ((toggle_pump Axis.X initState).pumps Axis.X).enabled =
        !((initState.pumps Axis.X).enabled) := by
  refine ⟨rfl, rfl, rfl, by decide, by decide, rfl⟩
